import Mathlib

/-
  Shallow embedding of the calculation engine of src/app.py:
  class HealthCalculator (calculate_bmi, get_bmi_category, calculate_calories,
  calculate_ideal_weight) and the imperial-to-metric conversion performed in
  show_calorie_calculator.

  The real numbers of the Python source are modelled by ℚ with exact
  arithmetic.  Python round(x, 1) (round half to even, one decimal) is
  pyround1, Python int(x) (truncation toward zero) is pyint, and a Python
  division that can raise ZeroDivisionError is pydiv, which returns
  Except PyErr ℚ.  Python dicts keyed by strings are association lists in
  insertion order; dict iteration and dict.get follow that order.
-/

namespace BMIApp

/-- The runtime error a Python division can raise. -/
inductive PyErr where
  | zeroDivisionError
deriving DecidableEq, Repr

/-- Python division: raises ZeroDivisionError on a zero divisor. -/
def pydiv (a b : ℚ) : Except PyErr ℚ :=
  if b = 0 then Except.error PyErr.zeroDivisionError else Except.ok (a / b)

/-- Round to the nearest integer, ties to the even integer
(the rounding used by Python round). -/
def roundHalfEven (x : ℚ) : ℤ :=
  if x - ⌊x⌋ < 1/2 then ⌊x⌋
  else if 1/2 < x - ⌊x⌋ then ⌊x⌋ + 1
  else if ⌊x⌋ % 2 = 0 then ⌊x⌋ else ⌊x⌋ + 1

/-- Python round(x, 1): round to one decimal place. -/
def pyround1 (x : ℚ) : ℚ :=
  (roundHalfEven (10 * x) : ℚ) / 10

/-- Python int(x): truncation toward zero. -/
def pyint (x : ℚ) : ℤ :=
  if x < 0 then ⌈x⌉ else ⌊x⌋

/-- HealthCalculator.bmi_categories (src/app.py lines 41-48): the insertion
ordered dict of category names with closed ranges; the upper bound none
models float('inf'). -/
def bmi_categories : List (String × ℚ × Option ℚ) :=
  [("Underweight", 0, some 18.4),
   ("Normal weight", 18.5, some 24.9),
   ("Overweight", 25, some 29.9),
   ("Obesity Class I", 30, some 34.9),
   ("Obesity Class II", 35, some 39.9),
   ("Obesity Class III", 40, none)]

/-- The comparison bmi <= max_bmi, where none stands for float('inf'). -/
def leMax (bmi : ℚ) : Option ℚ → Bool
  | some mx => decide (bmi ≤ mx)
  | none => true

/-- The loop condition min_bmi <= bmi <= max_bmi of get_bmi_category. -/
def matchesCat (bmi : ℚ) (c : String × ℚ × Option ℚ) : Bool :=
  decide (c.2.1 ≤ bmi) && leMax bmi c.2.2

/-- HealthCalculator.get_bmi_category (src/app.py lines 61-66): the first
matching category of the ordered dict, "Unknown" when none matches. -/
def get_bmi_category (bmi : ℚ) : String :=
  match bmi_categories.find? (matchesCat bmi) with
  | some c => c.1
  | none => "Unknown"

/-- HealthCalculator.calculate_bmi (src/app.py lines 50-59). -/
def calculate_bmi (weight height : ℚ) (unit_system : String) : Except PyErr ℚ :=
  if unit_system = "Metric (kg, cm)" then
    (pydiv weight ((height / 100) ^ 2)).map (fun bmi => pyround1 bmi)
  else
    (pydiv weight (height ^ 2)).map (fun q => pyround1 (q * 703))

/-- The activity_multipliers dict of calculate_calories
(src/app.py lines 76-82). -/
def activity_multipliers : List (String × ℚ) :=
  [("Sedentary", 1.2),
   ("Lightly active", 1.375),
   ("Moderately active", 1.55),
   ("Very active", 1.725),
   ("Extremely active", 1.9)]

/-- The goal_adjustments dict of calculate_calories
(src/app.py lines 87-91). -/
def goal_adjustments : List (String × ℚ) :=
  [("Lose weight", -500),
   ("Maintain weight", 0),
   ("Gain weight", 500)]

/-- Python dict.get(key, default) on a string-keyed dict in insertion order. -/
def dictGet (d : List (String × ℚ)) (k : String) (dflt : ℚ) : ℚ :=
  match d.find? (fun p => p.1 == k) with
  | some p => p.2
  | none => dflt

/-- HealthCalculator.calculate_calories (src/app.py lines 68-93). -/
def calculate_calories (age weight height : ℚ)
    (gender activity_level goal : String) : ℤ :=
  let bmr : ℚ :=
    if gender = "Male" then 10 * weight + 6.25 * height - 5 * age + 5
    else 10 * weight + 6.25 * height - 5 * age - 161
  let maintenance_calories := bmr * dictGet activity_multipliers activity_level 1.2
  pyint (maintenance_calories + dictGet goal_adjustments goal 0)

/-- HealthCalculator.calculate_ideal_weight (src/app.py lines 95-105). -/
def calculate_ideal_weight (height : ℚ) (unit_system : String) : ℚ × ℚ :=
  if unit_system = "Metric (kg, cm)" then
    (pyround1 (18.5 * (height / 100) ^ 2), pyround1 (24.9 * (height / 100) ^ 2))
  else
    (pyround1 ((18.5 * height ^ 2) / 703), pyround1 ((24.9 * height ^ 2) / 703))

/-- The imperial-to-metric conversion of show_calorie_calculator
(src/app.py lines 219-224): weight_kg = weight * 0.453592 and
height_cm = height * 2.54. -/
def imperial_to_metric (weight height : ℚ) : ℚ × ℚ :=
  (weight * 0.453592, height * 2.54)

/-- The six category names of the table, in order. -/
def categoryNames : List String :=
  ["Underweight", "Normal weight", "Overweight",
   "Obesity Class I", "Obesity Class II", "Obesity Class III"]

/- ### Helper lemmas on the rounding model -/

lemma roundHalfEven_sub_abs (x : ℚ) : |(roundHalfEven x : ℚ) - x| ≤ 1/2 := by
  have hf : (⌊x⌋ : ℚ) ≤ x := Int.floor_le x
  have hf2 : x < ⌊x⌋ + 1 := Int.lt_floor_add_one x
  unfold roundHalfEven
  split_ifs with h1 h2 h3 <;> rw [abs_le] <;> constructor <;> push_cast <;> linarith

lemma roundHalfEven_nonneg {x : ℚ} (h : 0 ≤ x) : 0 ≤ roundHalfEven x := by
  have hf : 0 ≤ ⌊x⌋ := Int.floor_nonneg.mpr h
  unfold roundHalfEven
  split_ifs <;> omega

lemma pyround1_sub_abs (x : ℚ) : |pyround1 x - x| ≤ 1/20 := by
  have h := roundHalfEven_sub_abs (10 * x)
  have he : pyround1 x - x = ((roundHalfEven (10 * x) : ℚ) - 10 * x) / 10 := by
    unfold pyround1
    ring
  rw [he, abs_div, abs_of_pos (by norm_num : (0:ℚ) < 10)]
  linarith

lemma pyround1_nonneg {x : ℚ} (h : 0 ≤ x) : 0 ≤ pyround1 x := by
  have := roundHalfEven_nonneg (by linarith : (0:ℚ) ≤ 10 * x)
  unfold pyround1
  positivity

lemma pyround1_close {x y : ℚ} (h : |x - y| < 1/10) :
    |pyround1 x - pyround1 y| ≤ 1/10 := by
  have hx := pyround1_sub_abs x
  have hy := pyround1_sub_abs y
  have h2 : |pyround1 x - pyround1 y| < 2/10 := by
    have t1 := abs_sub_le (pyround1 x) x (pyround1 y)
    have t2 := abs_sub_le x y (pyround1 y)
    have t3 : |x - pyround1 x| = |pyround1 x - x| := abs_sub_comm _ _
    have t4 : |pyround1 y - y| = |y - pyround1 y| := abs_sub_comm _ _
    linarith
  have hdiff : pyround1 x - pyround1 y =
      ((roundHalfEven (10 * x) - roundHalfEven (10 * y) : ℤ) : ℚ) / 10 := by
    unfold pyround1
    push_cast
    ring
  rw [hdiff] at h2 ⊢
  rw [abs_div, abs_of_pos (by norm_num : (0:ℚ) < 10)] at h2 ⊢
  have hlt : |((roundHalfEven (10 * x) - roundHalfEven (10 * y) : ℤ) : ℚ)| < 2 := by
    linarith
  have hint : |roundHalfEven (10 * x) - roundHalfEven (10 * y)| < 2 := by
    exact_mod_cast hlt
  have hle : |((roundHalfEven (10 * x) - roundHalfEven (10 * y) : ℤ) : ℚ)| ≤ 1 := by
    have h1 : |roundHalfEven (10 * x) - roundHalfEven (10 * y)| ≤ 1 := by omega
    exact_mod_cast h1
  linarith

/- ### Helper lemmas on the category table -/

lemma matchesCat_true_some {bmi mn mx : ℚ} {s : String}
    (h1 : mn ≤ bmi) (h2 : bmi ≤ mx) : matchesCat bmi (s, mn, some mx) = true := by
  simp [matchesCat, leMax]
  exact ⟨h1, h2⟩

lemma matchesCat_true_inf {bmi mn : ℚ} {s : String}
    (h1 : mn ≤ bmi) : matchesCat bmi (s, mn, none) = true := by
  simp [matchesCat, leMax]
  exact h1

lemma matchesCat_false_lo {bmi mn : ℚ} {s : String} {ub : Option ℚ}
    (h : bmi < mn) : ¬ matchesCat bmi (s, mn, ub) = true := by
  simp only [matchesCat, Bool.and_eq_true, decide_eq_true_eq, not_and, not_le]
  intro hle
  linarith

lemma matchesCat_false_hi {bmi mn mx : ℚ} {s : String}
    (h : mx < bmi) : ¬ matchesCat bmi (s, mn, some mx) = true := by
  simp only [matchesCat, leMax, Bool.and_eq_true, decide_eq_true_eq, not_and, not_le]
  intro _
  linarith

lemma get_bmi_category_underweight {bmi : ℚ} (h0 : 0 ≤ bmi) (h1 : bmi ≤ 18.4) :
    get_bmi_category bmi = "Underweight" := by
  unfold get_bmi_category bmi_categories
  rw [List.find?_cons_of_pos _ (matchesCat_true_some h0 h1)]

lemma get_bmi_category_normal {bmi : ℚ} (h1 : 18.5 ≤ bmi) (h2 : bmi ≤ 24.9) :
    get_bmi_category bmi = "Normal weight" := by
  unfold get_bmi_category bmi_categories
  rw [List.find?_cons_of_neg _ (matchesCat_false_hi (by norm_num; linarith)),
    List.find?_cons_of_pos _ (matchesCat_true_some h1 h2)]

lemma get_bmi_category_overweight {bmi : ℚ} (h1 : 25 ≤ bmi) (h2 : bmi ≤ 29.9) :
    get_bmi_category bmi = "Overweight" := by
  unfold get_bmi_category bmi_categories
  rw [List.find?_cons_of_neg _ (matchesCat_false_hi (by norm_num; linarith)),
    List.find?_cons_of_neg _ (matchesCat_false_hi (by norm_num; linarith)),
    List.find?_cons_of_pos _ (matchesCat_true_some h1 h2)]

lemma get_bmi_category_obesity1 {bmi : ℚ} (h1 : 30 ≤ bmi) (h2 : bmi ≤ 34.9) :
    get_bmi_category bmi = "Obesity Class I" := by
  unfold get_bmi_category bmi_categories
  rw [List.find?_cons_of_neg _ (matchesCat_false_hi (by norm_num; linarith)),
    List.find?_cons_of_neg _ (matchesCat_false_hi (by norm_num; linarith)),
    List.find?_cons_of_neg _ (matchesCat_false_hi (by norm_num; linarith)),
    List.find?_cons_of_pos _ (matchesCat_true_some h1 h2)]

lemma get_bmi_category_obesity2 {bmi : ℚ} (h1 : 35 ≤ bmi) (h2 : bmi ≤ 39.9) :
    get_bmi_category bmi = "Obesity Class II" := by
  unfold get_bmi_category bmi_categories
  rw [List.find?_cons_of_neg _ (matchesCat_false_hi (by norm_num; linarith)),
    List.find?_cons_of_neg _ (matchesCat_false_hi (by norm_num; linarith)),
    List.find?_cons_of_neg _ (matchesCat_false_hi (by norm_num; linarith)),
    List.find?_cons_of_neg _ (matchesCat_false_hi (by norm_num; linarith)),
    List.find?_cons_of_pos _ (matchesCat_true_some h1 h2)]

lemma get_bmi_category_obesity3 {bmi : ℚ} (h1 : 40 ≤ bmi) :
    get_bmi_category bmi = "Obesity Class III" := by
  unfold get_bmi_category bmi_categories
  rw [List.find?_cons_of_neg _ (matchesCat_false_hi (by norm_num; linarith)),
    List.find?_cons_of_neg _ (matchesCat_false_hi (by norm_num; linarith)),
    List.find?_cons_of_neg _ (matchesCat_false_hi (by norm_num; linarith)),
    List.find?_cons_of_neg _ (matchesCat_false_hi (by norm_num; linarith)),
    List.find?_cons_of_neg _ (matchesCat_false_hi (by norm_num; linarith)),
    List.find?_cons_of_pos _ (matchesCat_true_inf h1)]

lemma get_bmi_category_unknown {bmi : ℚ}
    (h : ∀ c ∈ bmi_categories, ¬ matchesCat bmi c = true) :
    get_bmi_category bmi = "Unknown" := by
  unfold get_bmi_category
  rw [List.find?_eq_none.mpr h]

/- ### Helper lemmas on the dict lookups of calculate_calories -/

lemma dictGet_default_activity (lvl : String)
    (hl : lvl ∉ ["Sedentary", "Lightly active", "Moderately active",
      "Very active", "Extremely active"]) :
    dictGet activity_multipliers lvl 1.2 = 1.2 := by
  simp only [List.mem_cons, List.not_mem_nil, or_false, not_or] at hl
  obtain ⟨h1, h2, h3, h4, h5⟩ := hl
  have e1 : ("Sedentary" == lvl) = false := beq_eq_false_iff_ne.mpr (fun h => h1 h.symm)
  have e2 : ("Lightly active" == lvl) = false := beq_eq_false_iff_ne.mpr (fun h => h2 h.symm)
  have e3 : ("Moderately active" == lvl) = false := beq_eq_false_iff_ne.mpr (fun h => h3 h.symm)
  have e4 : ("Very active" == lvl) = false := beq_eq_false_iff_ne.mpr (fun h => h4 h.symm)
  have e5 : ("Extremely active" == lvl) = false := beq_eq_false_iff_ne.mpr (fun h => h5 h.symm)
  simp [dictGet, activity_multipliers, List.find?, e1, e2, e3, e4, e5]

lemma dictGet_default_goal (g : String)
    (hg : g ∉ ["Lose weight", "Maintain weight", "Gain weight"]) :
    dictGet goal_adjustments g 0 = 0 := by
  simp only [List.mem_cons, List.not_mem_nil, or_false, not_or] at hg
  obtain ⟨h1, h2, h3⟩ := hg
  have e1 : ("Lose weight" == g) = false := beq_eq_false_iff_ne.mpr (fun h => h1 h.symm)
  have e2 : ("Maintain weight" == g) = false := beq_eq_false_iff_ne.mpr (fun h => h2 h.symm)
  have e3 : ("Gain weight" == g) = false := beq_eq_false_iff_ne.mpr (fun h => h3 h.symm)
  simp [dictGet, goal_adjustments, List.find?, e1, e2, e3]

lemma dictGet_act_sedentary (d : ℚ) : dictGet activity_multipliers "Sedentary" d = 1.2 := by
  simp [dictGet, activity_multipliers, List.find?]

lemma dictGet_act_light (d : ℚ) : dictGet activity_multipliers "Lightly active" d = 1.375 := by
  have e1 : ("Sedentary" == "Lightly active") = false := by decide
  simp [dictGet, activity_multipliers, List.find?, e1]

lemma dictGet_act_moderate (d : ℚ) :
    dictGet activity_multipliers "Moderately active" d = 1.55 := by
  have e1 : ("Sedentary" == "Moderately active") = false := by decide
  have e2 : ("Lightly active" == "Moderately active") = false := by decide
  simp [dictGet, activity_multipliers, List.find?, e1, e2]

lemma dictGet_act_very (d : ℚ) : dictGet activity_multipliers "Very active" d = 1.725 := by
  have e1 : ("Sedentary" == "Very active") = false := by decide
  have e2 : ("Lightly active" == "Very active") = false := by decide
  have e3 : ("Moderately active" == "Very active") = false := by decide
  simp [dictGet, activity_multipliers, List.find?, e1, e2, e3]

lemma dictGet_act_extreme (d : ℚ) :
    dictGet activity_multipliers "Extremely active" d = 1.9 := by
  have e1 : ("Sedentary" == "Extremely active") = false := by decide
  have e2 : ("Lightly active" == "Extremely active") = false := by decide
  have e3 : ("Moderately active" == "Extremely active") = false := by decide
  have e4 : ("Very active" == "Extremely active") = false := by decide
  simp [dictGet, activity_multipliers, List.find?, e1, e2, e3, e4]

lemma dictGet_goal_lose (d : ℚ) : dictGet goal_adjustments "Lose weight" d = -500 := by
  simp [dictGet, goal_adjustments, List.find?]

lemma dictGet_goal_maintain (d : ℚ) : dictGet goal_adjustments "Maintain weight" d = 0 := by
  have e1 : ("Lose weight" == "Maintain weight") = false := by decide
  simp [dictGet, goal_adjustments, List.find?, e1]

lemma dictGet_goal_gain (d : ℚ) : dictGet goal_adjustments "Gain weight" d = 500 := by
  have e1 : ("Lose weight" == "Gain weight") = false := by decide
  have e2 : ("Maintain weight" == "Gain weight") = false := by decide
  simp [dictGet, goal_adjustments, List.find?, e1, e2]

/- ### Claims -/

/-- Claim C1 counterexample: calling calculate_bmi with the height -170 (≤ 0)
does not fail at all: it returns the normally rounded BMI 24.2, because the
square of a negative height is positive and no validation is performed. -/
theorem claim_C1_counterexample :
    calculate_bmi 70 (-170) "Metric (kg, cm)" = Except.ok 24.2 := by
  norm_num [calculate_bmi, pydiv, pyround1, roundHalfEven, Except.map]

/-- Claim C1, amended: calculate_bmi performs no height validation.  With
height = 0 (any weight, any unit system) the division by zero is not caught:
it propagates as an uncaught ZeroDivisionError; with height < 0 the call
succeeds and returns a rounded BMI.  No InvalidInput error exists. -/
theorem claim_C1_no_height_validation (w h : ℚ) (u : String) :
    (h = 0 → calculate_bmi w h u = Except.error PyErr.zeroDivisionError) ∧
    (h < 0 → ∃ b, calculate_bmi w h u = Except.ok b) := by
  constructor
  · rintro rfl
    by_cases hu : u = "Metric (kg, cm)" <;>
      norm_num [calculate_bmi, hu, pydiv, Except.map]
  · intro hneg
    have hne : h ≠ 0 := ne_of_lt hneg
    by_cases hu : u = "Metric (kg, cm)"
    · have hd : ((h / 100) ^ 2 : ℚ) ≠ 0 := pow_ne_zero _ (div_ne_zero hne (by norm_num))
      exact ⟨pyround1 (w / (h / 100) ^ 2), by simp [calculate_bmi, hu, pydiv, hd, Except.map]⟩
    · have hd : (h ^ 2 : ℚ) ≠ 0 := pow_ne_zero _ hne
      exact ⟨pyround1 (w / h ^ 2 * 703), by simp [calculate_bmi, hu, pydiv, hd, Except.map]⟩

/-- Witness for the amended claim C1 at weight 70: height 0 raises
ZeroDivisionError, height -1 succeeds. -/
theorem claim_C1_no_height_validation_witness :
    calculate_bmi 70 0 "Metric (kg, cm)" = Except.error PyErr.zeroDivisionError ∧
    ∃ b, calculate_bmi 70 (-1) "Metric (kg, cm)" = Except.ok b :=
  ⟨(claim_C1_no_height_validation 70 0 "Metric (kg, cm)").1 rfl,
   (claim_C1_no_height_validation 70 (-1) "Metric (kg, cm)").2 (by norm_num)⟩

/-- Claim C2: the category table does NOT cover [0, ∞).  At the boundary
value 18.45 (inside the gap between Underweight and Normal weight)
get_bmi_category returns "Unknown", which is none of the six categories —
contradicting the claim and the app's own About text (Underweight is
BMI < 18.5). -/
theorem claim_C2_gap_failing_input :
    get_bmi_category 18.45 = "Unknown" ∧ "Unknown" ∉ categoryNames := by
  constructor
  · apply get_bmi_category_unknown
    intro c hc
    fin_cases hc
    · exact matchesCat_false_hi (by norm_num)
    · exact matchesCat_false_lo (by norm_num)
    · exact matchesCat_false_lo (by norm_num)
    · exact matchesCat_false_lo (by norm_num)
    · exact matchesCat_false_lo (by norm_num)
    · exact matchesCat_false_lo (by norm_num)
  · decide

/-- Claim C3: for positive weight and height, calculate_bmi computes
weight / (height/100)² rounded to one decimal in the metric unit system and
(weight / height²) × 703 rounded to one decimal in the imperial system;
weight 70 kg with height 170 cm gives BMI 24.2, category Normal weight. -/
theorem claim_C3_bmi_formula (w h : ℚ) (hw : 0 < w) (hh : 0 < h) :
    calculate_bmi w h "Metric (kg, cm)" = Except.ok (pyround1 (w / (h / 100) ^ 2)) ∧
    calculate_bmi w h "Imperial (lbs, inches)" = Except.ok (pyround1 (w / h ^ 2 * 703)) ∧
    calculate_bmi 70 170 "Metric (kg, cm)" = Except.ok 24.2 ∧
    get_bmi_category 24.2 = "Normal weight" := by
  have hne : h ≠ 0 := ne_of_gt hh
  have hd1 : ((h / 100) ^ 2 : ℚ) ≠ 0 := pow_ne_zero _ (div_ne_zero hne (by norm_num))
  have hd2 : (h ^ 2 : ℚ) ≠ 0 := pow_ne_zero _ hne
  have hsu : ¬ ("Imperial (lbs, inches)" = "Metric (kg, cm)") := by decide
  refine ⟨by simp [calculate_bmi, pydiv, hd1, Except.map],
    by simp [calculate_bmi, pydiv, hd2, hsu, Except.map], ?_, ?_⟩
  · norm_num [calculate_bmi, pydiv, pyround1, roundHalfEven, Except.map]
  · exact get_bmi_category_normal (by norm_num) (by norm_num)

/-- Witness for claim C3 at weight 70, height 170. -/
theorem claim_C3_bmi_formula_witness :
    calculate_bmi 70 170 "Metric (kg, cm)" = Except.ok (pyround1 (70 / (170 / 100) ^ 2)) ∧
    calculate_bmi 70 170 "Imperial (lbs, inches)" = Except.ok (pyround1 (70 / 170 ^ 2 * 703)) ∧
    calculate_bmi 70 170 "Metric (kg, cm)" = Except.ok 24.2 ∧
    get_bmi_category 24.2 = "Normal weight" :=
  claim_C3_bmi_formula 70 170 (by norm_num) (by norm_num)

/-- Claim C4 counterexample: the claimed scenario value is wrong.  At age 25,
weight 70 kg, height 170 cm, Male, Sedentary, Maintain weight the code
returns 1971 (bmr = 10·70 + 6.25·170 - 5·25 + 5 = 1642.5, times 1.2 gives
1971.0, truncated to 1971), not 2008. -/
theorem claim_C4_calories_counterexample :
    calculate_calories 25 70 170 "Male" "Sedentary" "Maintain weight" ≠ 2008 := by
  have he : calculate_calories 25 70 170 "Male" "Sedentary" "Maintain weight" = 1971 := by
    norm_num [calculate_calories, dictGet_act_sedentary, dictGet_goal_maintain, pyint]
  rw [he]
  decide

/-- Claim C4, amended: calculate_calories returns the Mifflin-St Jeor BMR
(10·weight + 6.25·height - 5·age + 5 for Male, -161 instead of +5 otherwise)
times the activity multiplier of the table, plus the goal offset of the
table, truncated (not rounded) to an integer; the scenario age 25, weight 70,
height 170, Male, Sedentary, Maintain weight yields 1971 (not 2008: the
spec's bmr arithmetic 1673.5 is wrong, the formula gives 1642.5). -/
theorem claim_C4_calories_formula :
    (∀ (age w h : ℚ) (lvl g : String) (m off : ℚ),
      (lvl, m) ∈ activity_multipliers → (g, off) ∈ goal_adjustments →
        calculate_calories age w h "Male" lvl g =
          pyint ((10 * w + 6.25 * h - 5 * age + 5) * m + off) ∧
        calculate_calories age w h "Female" lvl g =
          pyint ((10 * w + 6.25 * h - 5 * age - 161) * m + off)) ∧
    calculate_calories 25 70 170 "Male" "Sedentary" "Maintain weight" = 1971 := by
  constructor
  · intro age w h lvl g m off hm hg
    have hfm : ¬ ("Female" = "Male") := by decide
    simp only [activity_multipliers, List.mem_cons, List.not_mem_nil, or_false,
      Prod.mk.injEq] at hm
    simp only [goal_adjustments, List.mem_cons, List.not_mem_nil, or_false,
      Prod.mk.injEq] at hg
    rcases hm with ⟨rfl, rfl⟩ | ⟨rfl, rfl⟩ | ⟨rfl, rfl⟩ | ⟨rfl, rfl⟩ | ⟨rfl, rfl⟩ <;>
      rcases hg with ⟨rfl, rfl⟩ | ⟨rfl, rfl⟩ | ⟨rfl, rfl⟩ <;>
        exact ⟨by simp [calculate_calories, dictGet_act_sedentary, dictGet_act_light,
            dictGet_act_moderate, dictGet_act_very, dictGet_act_extreme,
            dictGet_goal_lose, dictGet_goal_maintain, dictGet_goal_gain],
          by simp [calculate_calories, hfm, dictGet_act_sedentary, dictGet_act_light,
            dictGet_act_moderate, dictGet_act_very, dictGet_act_extreme,
            dictGet_goal_lose, dictGet_goal_maintain, dictGet_goal_gain]⟩
  · norm_num [calculate_calories, dictGet_act_sedentary, dictGet_goal_maintain, pyint]

/-- Witness for the amended claim C4 at Sedentary (1.2), Maintain weight (0). -/
theorem claim_C4_calories_formula_witness :
    calculate_calories 25 70 170 "Male" "Sedentary" "Maintain weight" =
      pyint ((10 * 70 + 6.25 * 170 - 5 * 25 + 5) * 1.2 + 0) ∧
    calculate_calories 25 70 170 "Female" "Sedentary" "Maintain weight" =
      pyint ((10 * 70 + 6.25 * 170 - 5 * 25 - 161) * 1.2 + 0) :=
  claim_C4_calories_formula.1 25 70 170 "Sedentary" "Maintain weight" 1.2 0
    (by simp [activity_multipliers]) (by simp [goal_adjustments])

/-- Claim C5: an activity level outside the recognized five falls back to the
Sedentary multiplier 1.2 and a goal outside the recognized three falls back
to offset 0 (Maintain weight); the computation is total, no error is raised
for unknown enum values. -/
theorem claim_C5_unknown_enum_defaults (age w h : ℚ) (gender lvl g : String) :
    (lvl ∉ ["Sedentary", "Lightly active", "Moderately active", "Very active",
        "Extremely active"] →
      calculate_calories age w h gender lvl g =
        calculate_calories age w h gender "Sedentary" g) ∧
    (g ∉ ["Lose weight", "Maintain weight", "Gain weight"] →
      calculate_calories age w h gender lvl g =
        calculate_calories age w h gender lvl "Maintain weight") := by
  constructor
  · intro hl
    simp only [calculate_calories, dictGet_default_activity lvl hl, dictGet_act_sedentary]
  · intro hg
    simp only [calculate_calories, dictGet_default_goal g hg, dictGet_goal_maintain]

/-- Witness for claim C5: the unknown strings "Athlete" and "Bulk" behave as
Sedentary and Maintain weight. -/
theorem claim_C5_unknown_enum_defaults_witness :
    calculate_calories 25 70 170 "Male" "Athlete" "Bulk" =
      calculate_calories 25 70 170 "Male" "Sedentary" "Bulk" ∧
    calculate_calories 25 70 170 "Male" "Athlete" "Bulk" =
      calculate_calories 25 70 170 "Male" "Athlete" "Maintain weight" :=
  ⟨(claim_C5_unknown_enum_defaults 25 70 170 "Male" "Athlete" "Bulk").1 (by decide),
   (claim_C5_unknown_enum_defaults 25 70 170 "Male" "Athlete" "Bulk").2 (by decide)⟩

/-- Claim C6: calculate_ideal_weight returns (18.5 × height_m², 24.9 ×
height_m²) rounded to one decimal in metric, the same divided by 703 with
height in inches in imperial, and is a function of height and unit system
only; height 170 cm gives (53.5, 72.0). -/
theorem claim_C6_ideal_weight (h : ℚ) (hp : 0 < h) :
    calculate_ideal_weight h "Metric (kg, cm)" =
      (pyround1 (18.5 * (h / 100) ^ 2), pyround1 (24.9 * (h / 100) ^ 2)) ∧
    calculate_ideal_weight h "Imperial (lbs, inches)" =
      (pyround1 ((18.5 * h ^ 2) / 703), pyround1 ((24.9 * h ^ 2) / 703)) ∧
    calculate_ideal_weight 170 "Metric (kg, cm)" = (53.5, 72.0) := by
  have hsu : ¬ ("Imperial (lbs, inches)" = "Metric (kg, cm)") := by decide
  refine ⟨by simp [calculate_ideal_weight], by simp [calculate_ideal_weight, hsu], ?_⟩
  norm_num [calculate_ideal_weight, pyround1, roundHalfEven, Prod.ext_iff]

/-- Witness for claim C6 at height 170. -/
theorem claim_C6_ideal_weight_witness :
    calculate_ideal_weight 170 "Metric (kg, cm)" =
      (pyround1 (18.5 * (170 / 100) ^ 2), pyround1 (24.9 * (170 / 100) ^ 2)) ∧
    calculate_ideal_weight 170 "Imperial (lbs, inches)" =
      (pyround1 ((18.5 * 170 ^ 2) / 703), pyround1 ((24.9 * 170 ^ 2) / 703)) ∧
    calculate_ideal_weight 170 "Metric (kg, cm)" = (53.5, 72.0) :=
  claim_C6_ideal_weight 170 (by norm_num)

/-- Any successful result of calculate_bmi is an integer multiple of 0.1:
the value returned is always the one-decimal rounding. -/
lemma calculate_bmi_ok_shape (w h : ℚ) (u : String) (b : ℚ)
    (hb : calculate_bmi w h u = Except.ok b) : ∃ n : ℤ, b = (n : ℚ) / 10 := by
  unfold calculate_bmi pydiv at hb
  split_ifs at hb
  all_goals simp only [Except.map] at hb
  all_goals
    first
      | (rw [Except.ok.injEq] at hb
         exact ⟨_, by rw [← hb]; rfl⟩)
      | exact Except.noConfusion hb

/-- Claim C7 counterexample: at weight 0.01 kg and height 250 cm (both
strictly positive) the returned BMI is 0, because the exact BMI 0.0016
rounds to 0.0 at one decimal — the result is not strictly positive. -/
theorem claim_C7_counterexample :
    ¬ ∃ b, calculate_bmi (1 / 100) 250 "Metric (kg, cm)" = Except.ok b ∧ 0 < b := by
  rintro ⟨b, hb, hpos⟩
  have he : calculate_bmi (1 / 100) 250 "Metric (kg, cm)" = Except.ok 0 := by
    norm_num [calculate_bmi, pydiv, pyround1, roundHalfEven, Except.map]
  rw [he] at hb
  simp only [Except.ok.injEq] at hb
  subst hb
  exact lt_irrefl 0 hpos

/-- Claim C7, amended: for every weight > 0 and height > 0, in either unit
system, calculate_bmi succeeds (no error, the value is a finite rational)
and the returned value is nonnegative; it is not always strictly positive,
since rounding to one decimal sends exact BMI values below 0.05 to 0. -/
theorem claim_C7_nonneg_finite (w h : ℚ) (u : String) (hw : 0 < w) (hh : 0 < h) :
    ∃ b, calculate_bmi w h u = Except.ok b ∧ 0 ≤ b := by
  by_cases hu : u = "Metric (kg, cm)"
  · have hd : ((h / 100) ^ 2 : ℚ) ≠ 0 :=
      pow_ne_zero _ (div_ne_zero (ne_of_gt hh) (by norm_num))
    refine ⟨pyround1 (w / (h / 100) ^ 2),
      by simp [calculate_bmi, hu, pydiv, hd, Except.map], ?_⟩
    have hpos : (0:ℚ) ≤ w / (h / 100) ^ 2 := by positivity
    exact pyround1_nonneg hpos
  · have hd : (h ^ 2 : ℚ) ≠ 0 := pow_ne_zero _ (ne_of_gt hh)
    refine ⟨pyround1 (w / h ^ 2 * 703),
      by simp [calculate_bmi, hu, pydiv, hd, Except.map], ?_⟩
    have hpos : (0:ℚ) ≤ w / h ^ 2 * 703 := by positivity
    exact pyround1_nonneg hpos

/-- Witness for the amended claim C7 at weight 70, height 170, metric. -/
theorem claim_C7_nonneg_finite_witness :
    ∃ b, calculate_bmi 70 170 "Metric (kg, cm)" = Except.ok b ∧ 0 ≤ b :=
  claim_C7_nonneg_finite 70 170 "Metric (kg, cm)" (by norm_num) (by norm_num)

/-- Claim C8 counterexample: at 1000 lbs and 1 inch the imperial BMI is
703000 but the metric BMI after the 0.453592 / 2.54 conversion is 703069:
the conversion factor is 703.069005..., not 703, so the discrepancy grows
with weight/height² and here reaches 69, far above the 0.1 tolerance. -/
theorem claim_C8_counterexample :
    calculate_bmi 1000 1 "Imperial (lbs, inches)" = Except.ok 703000 ∧
    calculate_bmi (imperial_to_metric 1000 1).1 (imperial_to_metric 1000 1).2
      "Metric (kg, cm)" = Except.ok 703069 ∧
    ¬ |(703000 : ℚ) - 703069| ≤ 0.1 := by
  have hsu : ¬ ("Imperial (lbs, inches)" = "Metric (kg, cm)") := by decide
  refine ⟨?_, ?_, by norm_num⟩
  · norm_num [calculate_bmi, hsu, pydiv, pyround1, roundHalfEven, Except.map]
  · norm_num [calculate_bmi, imperial_to_metric, pydiv, pyround1, roundHalfEven,
      Except.map]

/-- Claim C8, amended: the imperial BMI and the metric BMI after converting
with 1 lb = 0.453592 kg and 1 in = 2.54 cm differ by at most 0.1 provided
weight/height² ≤ 1.44 (imperial BMI up to roughly 1012, far beyond the
plausible human range); without such a bound the difference between the
code's factor 703 and the conversion's exact 703.069005... exceeds the
tolerance, as the counterexample shows. -/
theorem claim_C8_bounded_roundtrip (w h : ℚ) (hw : 0 < w) (hh : 0 < h)
    (hb : w / h ^ 2 ≤ 36 / 25) :
    ∃ a b : ℚ,
      calculate_bmi w h "Imperial (lbs, inches)" = Except.ok a ∧
      calculate_bmi (imperial_to_metric w h).1 (imperial_to_metric w h).2
        "Metric (kg, cm)" = Except.ok b ∧
      |a - b| ≤ 0.1 := by
  have hne : h ≠ 0 := ne_of_gt hh
  have hd2 : (h ^ 2 : ℚ) ≠ 0 := pow_ne_zero _ hne
  have hsu : ¬ ("Imperial (lbs, inches)" = "Metric (kg, cm)") := by decide
  have hdm : (((h * 2.54) / 100) ^ 2 : ℚ) ≠ 0 := by
    apply pow_ne_zero
    apply div_ne_zero _ (by norm_num)
    exact mul_ne_zero hne (by norm_num)
  refine ⟨pyround1 (w / h ^ 2 * 703),
    pyround1 (w * 0.453592 / ((h * 2.54) / 100) ^ 2), ?_, ?_, ?_⟩
  · simp [calculate_bmi, hsu, pydiv, hd2, Except.map]
  · simp [calculate_bmi, imperial_to_metric, pydiv, hdm, Except.map]
  · have hq : (0.1 : ℚ) = 1 / 10 := by norm_num
    rw [hq]
    apply pyround1_close
    have harg : w * 0.453592 / ((h * 2.54) / 100) ^ 2
        = 11339800 / 16129 * (w / h ^ 2) := by
      field_simp
      ring
    rw [harg]
    have key : w / h ^ 2 * 703 - 11339800 / 16129 * (w / h ^ 2)
        = -(1113 / 16129 * (w / h ^ 2)) := by ring
    have ht : (0:ℚ) < w / h ^ 2 := div_pos hw (pow_pos hh 2)
    rw [key, abs_neg, abs_of_nonneg (mul_nonneg (by norm_num) (le_of_lt ht))]
    linarith

/-- Witness for the amended claim C8 at 154 lbs, 67 inches (Scenario 2). -/
theorem claim_C8_bounded_roundtrip_witness :
    ∃ a b : ℚ,
      calculate_bmi 154 67 "Imperial (lbs, inches)" = Except.ok a ∧
      calculate_bmi (imperial_to_metric 154 67).1 (imperial_to_metric 154 67).2
        "Metric (kg, cm)" = Except.ok b ∧
      |a - b| ≤ 0.1 :=
  claim_C8_bounded_roundtrip 154 67 (by norm_num) (by norm_num) (by norm_num)

/-- Claim C9: for every bmi matched by no interval of the table — every
negative bmi and every bmi strictly inside one of the five gaps
(18.4, 18.5), (24.9, 25), (29.9, 30), (34.9, 35), (39.9, 40) —
get_bmi_category returns the string "Unknown" rather than a category or an
error. -/
theorem claim_C9_unknown_outside_table (bmi : ℚ)
    (hreg : bmi < 0 ∨ (18.4 < bmi ∧ bmi < 18.5) ∨ (24.9 < bmi ∧ bmi < 25) ∨
      (29.9 < bmi ∧ bmi < 30) ∨ (34.9 < bmi ∧ bmi < 35) ∨
      (39.9 < bmi ∧ bmi < 40)) :
    get_bmi_category bmi = "Unknown" := by
  apply get_bmi_category_unknown
  intro c hc
  fin_cases hc <;>
    rcases hreg with hr | ⟨hr1, hr2⟩ | ⟨hr1, hr2⟩ | ⟨hr1, hr2⟩ | ⟨hr1, hr2⟩ | ⟨hr1, hr2⟩ <;>
      first
        | exact matchesCat_false_lo (by linarith)
        | exact matchesCat_false_hi (by linarith)

/-- Witness for claim C9 at the gap value 18.45. -/
theorem claim_C9_unknown_outside_table_witness :
    ((18.45 : ℚ) < 0 ∨ ((18.4 : ℚ) < 18.45 ∧ (18.45 : ℚ) < 18.5) ∨
      ((24.9 : ℚ) < 18.45 ∧ (18.45 : ℚ) < 25) ∨
      ((29.9 : ℚ) < 18.45 ∧ (18.45 : ℚ) < 30) ∨
      ((34.9 : ℚ) < 18.45 ∧ (18.45 : ℚ) < 35) ∨
      ((39.9 : ℚ) < 18.45 ∧ (18.45 : ℚ) < 40)) ∧
    get_bmi_category 18.45 = "Unknown" :=
  ⟨by norm_num, claim_C9_unknown_outside_table 18.45 (by norm_num)⟩

/-- Claim C10: every successful calculate_bmi value is an integer multiple
of 0.1, and every nonnegative integer multiple of 0.1 falls in exactly one
row of the table: get_bmi_category returns one of the six categories and
never "Unknown" on the image of the rounding. -/
theorem claim_C10_rounding_image_always_categorized :
    (∀ (w h : ℚ) (u : String) (b : ℚ),
      calculate_bmi w h u = Except.ok b → ∃ n : ℤ, b = (n : ℚ) / 10) ∧
    (∀ k : ℕ, get_bmi_category ((k : ℚ) / 10) ∈ categoryNames ∧
      get_bmi_category ((k : ℚ) / 10) ≠ "Unknown") := by
  constructor
  · exact calculate_bmi_ok_shape
  · intro k
    have hk0 : (0:ℚ) ≤ (k : ℚ) / 10 := by positivity
    rcases le_or_lt k 184 with h1 | h1
    · have hc : (k : ℚ) ≤ 184 := by exact_mod_cast h1
      rw [get_bmi_category_underweight hk0 (by linarith)]
      exact ⟨by simp [categoryNames], by decide⟩
    · have h1' : (185 : ℚ) ≤ (k : ℚ) := by exact_mod_cast h1
      rcases le_or_lt k 249 with h2 | h2
      · have hc : (k : ℚ) ≤ 249 := by exact_mod_cast h2
        rw [get_bmi_category_normal (by linarith) (by linarith)]
        exact ⟨by simp [categoryNames], by decide⟩
      · have h2' : (250 : ℚ) ≤ (k : ℚ) := by exact_mod_cast h2
        rcases le_or_lt k 299 with h3 | h3
        · have hc : (k : ℚ) ≤ 299 := by exact_mod_cast h3
          rw [get_bmi_category_overweight (by linarith) (by linarith)]
          exact ⟨by simp [categoryNames], by decide⟩
        · have h3' : (300 : ℚ) ≤ (k : ℚ) := by exact_mod_cast h3
          rcases le_or_lt k 349 with h4 | h4
          · have hc : (k : ℚ) ≤ 349 := by exact_mod_cast h4
            rw [get_bmi_category_obesity1 (by linarith) (by linarith)]
            exact ⟨by simp [categoryNames], by decide⟩
          · have h4' : (350 : ℚ) ≤ (k : ℚ) := by exact_mod_cast h4
            rcases le_or_lt k 399 with h5 | h5
            · have hc : (k : ℚ) ≤ 399 := by exact_mod_cast h5
              rw [get_bmi_category_obesity2 (by linarith) (by linarith)]
              exact ⟨by simp [categoryNames], by decide⟩
            · have h5' : (400 : ℚ) ≤ (k : ℚ) := by exact_mod_cast h5
              rw [get_bmi_category_obesity3 (by linarith)]
              exact ⟨by simp [categoryNames], by decide⟩

/-- Witness for claim C10: the scenario value 24.2 is a multiple of 0.1 and
242/10 is categorized (as Normal weight, in particular not "Unknown"). -/
theorem claim_C10_rounding_image_always_categorized_witness :
    (∃ n : ℤ, (24.2 : ℚ) = (n : ℚ) / 10) ∧
    (get_bmi_category (((242 : ℕ) : ℚ) / 10) ∈ categoryNames ∧
      get_bmi_category (((242 : ℕ) : ℚ) / 10) ≠ "Unknown") :=
  ⟨claim_C10_rounding_image_always_categorized.1 70 170 "Metric (kg, cm)" 24.2
      (by norm_num [calculate_bmi, pydiv, pyround1, roundHalfEven, Except.map]),
   claim_C10_rounding_image_always_categorized.2 242⟩

end BMIApp
